import Mathlib

/-!
Shallow embedding of the storage stack of the `rust-raspberrypi-OS` kernel
(`kernel/src/bsp/device_driver/{mbr.rs, sd.rs, emmc.rs, fat32.rs}`) and proofs
about it.

Modelling conventions:
* Bytes and machine integers are `Nat`; wrap-around is written explicitly as
  `% 2 ^ w` where the Rust code can overflow.  The kernel is built in release
  mode, so arithmetic overflow wraps and an overlong shift amount is masked
  by the bit width (`x << 32` on a `u32` shifts by `32 % 32 = 0`).
* Byte buffers (`Vec<u8>`, `[u8; N]`) are `List Nat`.
* A Rust `panic!`, a failed `assert!`, an out-of-bounds index and an
  arithmetic-underflow abort are all modelled as `none` / `.panicked`.
* `println!` calls are side-effect free logging and are dropped.
* The low-level EMMC protocol engine (`EMMCController::emmc_transfer_blocks`)
  is external to the sources; it is modelled as an abstract function giving
  the bytes it deposits in the caller's 512-byte buffer.
* The unbounded `while` loops of the FAT cluster-chain walker are modelled
  with an explicit fuel parameter; `.outOfFuel` means the loop has not
  finished within the given number of iterations.
-/

namespace RPiOS

/-! ## Little-endian decoders (`fat32.rs`) -/

/-- `arr_to_u16` from `fat32.rs`: little-endian decode of a 2-byte array,
`res += arr[i] << (i * 8)` for `i = 0, 1`. -/
def arr_to_u16 (arr : List Nat) : Nat :=
  arr.getD 0 0 + arr.getD 1 0 * 2 ^ 8

/-- `arr_to_u32` from `fat32.rs`: little-endian decode of a 4-byte array,
`res += arr[i] << (i * 8)` for `i = 0, 1, 2, 3`. -/
def arr_to_u32 (arr : List Nat) : Nat :=
  arr.getD 0 0 + arr.getD 1 0 * 2 ^ 8 + arr.getD 2 0 * 2 ^ 16 + arr.getD 3 0 * 2 ^ 24

/-- `arr_to_u32_le` from `fat32.rs`: `res += arr[i] << (32 - i * 8)`.
In release mode the `u32` shift amount is masked by 32, so the shifts used
are `0, 24, 16, 8` and the additions wrap modulo `2 ^ 32`.  (This is the
decoder `get_next_cluster_val` applies to FAT entries.) -/
def arr_to_u32_le (arr : List Nat) : Nat :=
  (arr.getD 0 0 + arr.getD 1 0 * 2 ^ 24 + arr.getD 2 0 * 2 ^ 16 + arr.getD 3 0 * 2 ^ 8)
    % 2 ^ 32

/-- `u32::from_le_bytes`, used by `PartitionEntry::new` in `mbr.rs`. -/
def u32_from_le_bytes (arr : List Nat) : Nat :=
  arr.getD 0 0 + arr.getD 1 0 * 2 ^ 8 + arr.getD 2 0 * 2 ^ 16 + arr.getD 3 0 * 2 ^ 24

/-! ## Block device (`sd.rs`) -/

/-- `SDInner::emmc_read_sectors` allocates a fixed `[u8; 512]` buffer, hands it
to the external protocol engine `emmc_transfer_blocks(lba, nsec, &mut buffer,
false)`, and returns it.  The engine is abstracted as `tr`, giving the byte it
leaves at each of the 512 buffer positions.  Whatever `nsec` is requested, the
returned buffer is the fixed 512-byte array. -/
def emmc_read_sectors (tr : Nat → Nat → Fin 512 → Nat) (lba nsec : Nat) : List Nat :=
  List.ofFn fun i : Fin 512 => tr lba nsec i

/-- `SD::pi_sec_read`: delegates to `SDInner::emmc_read_sectors` under the lock
and returns its `Ok` buffer (the `Result` is always `Ok` in the source). -/
def pi_sec_read (tr : Nat → Nat → Fin 512 → Nat) (lba nsec : Nat) : List Nat :=
  emmc_read_sectors tr lba nsec

/-! ## MBR (`mbr.rs`) -/

/-- `PartitionEntry` from `mbr.rs`. -/
structure PartitionEntry where
  bootable_p : Nat
  chs_start : List Nat
  part_type : Nat
  chs_end : List Nat
  lba_start : Nat
  nsec : Nat
  deriving DecidableEq

/-- `PartitionEntry::new`: decode of a 16-byte partition-table slot.
Byte 0 is the bootable flag, bytes 1..4 the CHS start triple, byte 4 the
partition type, bytes 5..8 the CHS end triple, bytes 8..12 the 32-bit
little-endian LBA start and bytes 12..16 the little-endian sector count. -/
def PartitionEntry.new (part : List Nat) : PartitionEntry where
  bootable_p := part.getD 0 0
  chs_start := (part.drop 1).take 3
  part_type := part.getD 4 0
  chs_end := (part.drop 5).take 3
  lba_start := u32_from_le_bytes ((part.drop 8).take 4)
  nsec := u32_from_le_bytes ((part.drop 12).take 4)

/-- `MBRInner` from `mbr.rs`: 446 bytes of boot code, four 16-byte partition
slots, 2-byte signature. -/
structure MBRInner where
  code : List Nat
  part_tab1 : List Nat
  part_tab2 : List Nat
  part_tab3 : List Nat
  part_tab4 : List Nat
  sigval : List Nat
  deriving DecidableEq

/-- `MBRInner::mbr_part_is_fat32`. -/
def mbr_part_is_fat32 (t : Nat) : Bool :=
  t == 0xB || t == 0xC

/-- `MBRInner::mbr_partition_empty`: the 16-byte slot is all zero. -/
def mbr_partition_empty (part : List Nat) : Bool :=
  part == List.replicate 16 0

/-- `MBRInner::mbr_check`: a sequence of `assert!`s (each failing assert is a
kernel panic, modelled as overall falsity): signature bytes are `0x55, 0xAA`,
slot 1 decodes to a FAT32 partition type, slot 1 is not all-zero, and slots
2, 3, 4 are all-zero.  If every assert passes the function returns `true`. -/
def mbr_check (m : MBRInner) : Bool :=
  (m.sigval.getD 0 0 == 0x55) && (m.sigval.getD 1 0 == 0xAA)
    && mbr_part_is_fat32 (PartitionEntry.new m.part_tab1).part_type
    && !(mbr_partition_empty m.part_tab1)
    && mbr_partition_empty m.part_tab2
    && mbr_partition_empty m.part_tab3
    && mbr_partition_empty m.part_tab4

/-! ## FAT32 boot sector (`fat32.rs`) -/

/-- `BootSector` from `fat32.rs` (the `_ignore*` padding payload fields are
dropped; every field is kept as the raw little-endian byte array exactly as
deserialized by `postcard::from_bytes`). -/
structure BootSector where
  asm_code : List Nat
  oem : List Nat
  bytes_per_sec : List Nat
  sec_per_cluster : Nat
  reserved_area_nsec : List Nat
  nfats : Nat
  max_files : List Nat
  fs_nsec : List Nat
  media_type : Nat
  zero : List Nat
  sec_per_track : List Nat
  n_heads : List Nat
  hidden_secs : List Nat
  nsec_in_fs : List Nat
  nsec_per_fat : List Nat
  mirror_flags : List Nat
  version : List Nat
  first_cluster : List Nat
  info_sec_num : List Nat
  backup_boot_loc : List Nat
  logical_drive_num : Nat
  extended_sig : Nat
  serial_num : List Nat
  volume_label : List Nat
  fs_type : List Nat
  sig : List Nat
  deriving DecidableEq

/-- `Fat32Inner::fat32_volume_id_check`: a sequence of `assert!`s over the
decoded boot sector (a failing assert is a kernel panic, modelled as overall
falsity).  Multi-byte fields are decoded with the little-endian `arr_to_u16` /
`arr_to_u32` before comparison. -/
def fat32_volume_id_check (b : BootSector) : Bool :=
  (arr_to_u16 b.bytes_per_sec == 512)
    && (b.nfats == 2)
    && (arr_to_u16 b.sig == 0xAA55)
    && (b.sec_per_cluster % 2 == 0)
    && (arr_to_u16 b.max_files == 0)
    && (arr_to_u16 b.fs_nsec == 0)
    && (arr_to_u16 b.zero == 0)
    && (arr_to_u32 b.nsec_in_fs != 0)
    && (arr_to_u16 b.info_sec_num == 1)
    && (arr_to_u16 b.backup_boot_loc == 6)
    && (b.extended_sig == 0x29)

/-! ## FAT entry classification and cluster-chain traversal (`fat32.rs`) -/

/-- `Fat32ClusterType` from `fat32.rs`. -/
inductive Fat32ClusterType where
  | FreeCluster
  | ReservedCluster
  | BadCluster
  | LastCluster
  | UsedCluster
  deriving DecidableEq

/-- `Fat32Inner::get_fat_entry_type`: clears the top 4 bits of the 32-bit
input with `cls = (cls << 4) >> 4` (release-mode `u32` semantics: multiply by
16 modulo `2 ^ 32`, then divide by 16) and matches the result against the five
classification ranges; any other value hits the `panic!` arm, modelled as
`none`. -/
def get_fat_entry_type (x : Nat) : Option Fat32ClusterType :=
  let cls := ((x * 2 ^ 4) % 2 ^ 32) / 2 ^ 4
  if cls = 0x0 then some .FreeCluster
  else if cls = 0x1 then some .ReservedCluster
  else if cls = 0xFFFFFF7 then some .BadCluster
  else if 0xFFFFFF8 ≤ cls ∧ cls ≤ 0xFFFFFFF then some .LastCluster
  else if 0x2 ≤ cls ∧ cls ≤ 0xFFFFFEF then some .UsedCluster
  else none

/-- `Fat32Inner::get_next_cluster_val`: reads the four bytes
`fat[idx], fat[idx+1], fat[idx+2], fat[idx+3]` of the in-memory FAT buffer at
the raw byte offset `idx = last_cluster_idx` (not `idx * 4`) and decodes them
with `arr_to_u32_le`.  An out-of-bounds index panics, modelled as `none`. -/
def get_next_cluster_val (fat : List Nat) (last_cluster_idx : Nat) : Option Nat :=
  match fat.get? last_cluster_idx, fat.get? (last_cluster_idx + 1),
      fat.get? (last_cluster_idx + 2), fat.get? (last_cluster_idx + 3) with
  | some a, some b, some c, some d => some (arr_to_u32_le [a, b, c, d])
  | _, _, _, _ => none

/-- The `while` condition shared by `get_cluster_chain_length` and
`get_cluster_chain_data`: the current `cluster` value is classified and the
loop continues iff the type is none of `LastCluster`, `FreeCluster`,
`BadCluster`, `ReservedCluster` (the source evaluates `get_fat_entry_type`
once per comparison, but the function is pure so one evaluation suffices);
a classification panic propagates as `none`. -/
def chainCondition (cluster : Nat) : Option Bool :=
  match get_fat_entry_type cluster with
  | none => none
  | some t =>
      some (!(t == .LastCluster) && !(t == .FreeCluster)
        && !(t == .BadCluster) && !(t == .ReservedCluster))

/-- Outcome of a fuel-bounded run of an unbounded source loop. -/
inductive LoopResult (α : Type) where
  | ok (a : α)
  | panicked
  | outOfFuel
  deriving DecidableEq

/-- Loop body of `Fat32Inner::get_cluster_chain_length`, with fuel.  Starting
from `cluster` with accumulator `len`, while the chain condition holds the
code fetches the next cluster value from the FAT and increments the (u32)
length. -/
def chainLengthLoop (fat : List Nat) : Nat → Nat → Nat → LoopResult Nat
  | 0, _, _ => .outOfFuel
  | fuel + 1, cluster, len =>
    match chainCondition cluster with
    | none => .panicked
    | some false => .ok len
    | some true =>
      match get_next_cluster_val fat cluster with
      | none => .panicked
      | some c2 => chainLengthLoop fat fuel c2 ((len + 1) % 2 ^ 32)

/-- `Fat32Inner::get_cluster_chain_length`, with fuel. -/
def get_cluster_chain_length (fat : List Nat) (start_cluster fuel : Nat) : LoopResult Nat :=
  chainLengthLoop fat fuel start_cluster 0

/-- `Fat32Inner` from `fat32.rs`.  The driver state used by the traversal
code: partition geometry, the in-memory FAT byte buffer and the SD block
device (abstracted, as in `emmc_read_sectors`, by the bytes the external
transfer engine deposits in each 512-byte read buffer). -/
structure Fat32Inner where
  lba_start : Nat
  fat_begin_lba : Nat
  clusters_begin_lba : Nat
  sectors_per_cluster : Nat
  root_dir_first_cluster : Nat
  fat : List Nat
  n_entries : Nat
  sdTransfer : Nat → Nat → Fin 512 → Nat

/-- `Fat32Inner::cluster_to_lba`: `assert!(cluster_num >= 2)` (panic modelled
as `none`), then `clusters_begin_lba + (cluster_num - 2) * sectors_per_cluster`
with wrapping u32 arithmetic. -/
def cluster_to_lba (inner : Fat32Inner) (cluster_num : Nat) : Option Nat :=
  if 2 ≤ cluster_num then
    some ((inner.clusters_begin_lba + (cluster_num - 2) * inner.sectors_per_cluster) % 2 ^ 32)
  else none

/-- Loop body of `Fat32Inner::get_cluster_chain_data`, with fuel.  While the
chain condition holds, the code reads `sectors_per_cluster` sectors at the
current cluster's LBA through `pi_sec_read` (which always yields 512 bytes),
appends them to the accumulated data, and follows the FAT to the next cluster
value. -/
def chainDataLoop (inner : Fat32Inner) : Nat → Nat → List Nat → LoopResult (List Nat)
  | 0, _, _ => .outOfFuel
  | fuel + 1, cluster, data =>
    match chainCondition cluster with
    | none => .panicked
    | some false => .ok data
    | some true =>
      match cluster_to_lba inner cluster with
      | none => .panicked
      | some lba =>
        let new_data := pi_sec_read inner.sdTransfer lba inner.sectors_per_cluster
        match get_next_cluster_val inner.fat cluster with
        | none => .panicked
        | some c2 => chainDataLoop inner fuel c2 (data ++ new_data)

/-- `Fat32Inner::get_cluster_chain_data`, with fuel. -/
def get_cluster_chain_data (inner : Fat32Inner) (start_cluster fuel : Nat) :
    LoopResult (List Nat) :=
  chainDataLoop inner fuel start_cluster []

/-! ## Directory entries (`fat32.rs`) -/

/-- `Fat32Dirent` from `fat32.rs`: the raw 32-byte on-disk record as
deserialized field-by-field by `postcard::from_bytes`. -/
structure Fat32Dirent where
  filename : List Nat
  attr : Nat
  reserved : Nat
  create_time_tenths : Nat
  create_time : List Nat
  create_date : List Nat
  access_date : List Nat
  hi_start : List Nat
  mod_time : List Nat
  mod_date : List Nat
  lo_start : List Nat
  file_nbytes : List Nat
  deriving DecidableEq

/-- `postcard::from_bytes::<Fat32Dirent>` on a 32-byte slice: the fields are
consecutive little-endian byte regions (11 + 1 + 1 + 1 + 2 + 2 + 2 + 2 + 2 +
2 + 2 + 4 = 32 bytes).  All call sites pass exactly 32 bytes. -/
def dirent_from_bytes (b : List Nat) : Fat32Dirent where
  filename := b.take 11
  attr := b.getD 11 0
  reserved := b.getD 12 0
  create_time_tenths := b.getD 13 0
  create_time := (b.drop 14).take 2
  create_date := (b.drop 16).take 2
  access_date := (b.drop 18).take 2
  hi_start := (b.drop 20).take 2
  mod_time := (b.drop 22).take 2
  mod_date := (b.drop 24).take 2
  lo_start := (b.drop 26).take 2
  file_nbytes := (b.drop 28).take 4

/-- `Fat32Dirent::dirent_is_lfn`, via `get_dirent_attr(Fat32LongFileName)`:
`attr & 0x0f != 0`. -/
def dirent_is_lfn (d : Fat32Dirent) : Bool :=
  d.attr &&& 0x0f != 0

/-- `Fat32Dirent::dirent_is_vol_label`: `attr & 0x08 != 0`. -/
def dirent_is_vol_label (d : Fat32Dirent) : Bool :=
  d.attr &&& 0x08 != 0

/-- `Fat32Dirent::dirent_is_free`: first filename byte is `0x00` or `0xE5`. -/
def dirent_is_free (d : Fat32Dirent) : Bool :=
  d.filename.getD 0 0 == 0 || d.filename.getD 0 0 == 0xe5

/-- `Fat32Dirent::dirent_cluster_id`: `hi_start << 16 | lo_start`, both halves
decoded with the little-endian `arr_to_u16`. -/
def dirent_cluster_id (d : Fat32Dirent) : Nat :=
  (arr_to_u16 d.hi_start) <<< 16 ||| arr_to_u16 d.lo_start

/-- `Dirent` from `fat32.rs` (the converted, logical entry).  The `name` and
`raw_name` strings are kept as their byte lists; `dirent_convert` builds both
from the same 11 filename bytes. -/
structure Dirent where
  name : List Nat
  raw_name : List Nat
  cluster_id : Nat
  nbytes : Nat
  is_dir_p : Bool
  deriving DecidableEq

/-- `Fat32Dirent::dirent_convert`.  (The source passes the filename bytes
through `core::str::from_utf8(..).unwrap()`, which panics on invalid UTF-8;
the byte content is preserved unchanged for valid input, which is what the
claims exercise.) -/
def dirent_convert (d : Fat32Dirent) : Dirent where
  name := d.filename
  raw_name := d.filename
  cluster_id := dirent_cluster_id d
  nbytes := arr_to_u32 d.file_nbytes
  is_dir_p := d.attr &&& 0x10 != 0

/-- `Directory` from `fat32.rs`. -/
structure Directory where
  dirents : List Dirent
  n_dirents : Nat
  deriving DecidableEq

/-- The record-slicing loop of `Fat32Inner::get_dirents`:
`for i in (0..data.len() - 32).step_by(32)` deserializes the 32-byte slice at
each visited offset.  The half-open range `0 .. len - 32` stepped by 32 visits
`ceil((len - 32) / 32)` offsets (for `len ≥ 32`), so the final 32-byte record
of the buffer is never visited. -/
def sliceDirents (data : List Nat) : List Fat32Dirent :=
  (List.range ((data.length - 32 + 31) / 32)).map
    fun k => dirent_from_bytes ((data.drop (32 * k)).take 32)

/-- `Fat32Inner::get_dirents`: computes the chain length, reads the full chain
data, then slices it into 32-byte records.  When the chain data is shorter
than 32 bytes, `data.len() - 32` underflows: in a debug build the subtraction
itself panics, in a release build it wraps and the first slice
`&data[0..32]` is out of bounds and panics; both are `.panicked`. -/
def get_dirents (inner : Fat32Inner) (start_cluster fuel : Nat) :
    LoopResult (List Fat32Dirent) :=
  match get_cluster_chain_length inner.fat start_cluster fuel with
  | .outOfFuel => .outOfFuel
  | .panicked => .panicked
  | .ok _chain_len =>
    match get_cluster_chain_data inner start_cluster fuel with
    | .outOfFuel => .outOfFuel
    | .panicked => .panicked
    | .ok data =>
      if data.length < 32 then .panicked
      else .ok (sliceDirents data)

/-- `Fat32Inner::read_dir`: fetches the raw records of the entry's cluster
chain, skips every record that is a long-filename entry, free/deleted, or a
volume label, and converts the remainder in order, counting them. -/
def read_dir (inner : Fat32Inner) (dir_ent : Dirent) (fuel : Nat) : LoopResult Directory :=
  match get_dirents inner dir_ent.cluster_id fuel with
  | .outOfFuel => .outOfFuel
  | .panicked => .panicked
  | .ok vec =>
    let kept := vec.filter
      fun d => !(dirent_is_lfn d || dirent_is_free d || dirent_is_vol_label d)
    .ok { dirents := kept.map dirent_convert, n_dirents := kept.length }

/-- `Fat32Inner::fat32_get_root`: the synthetic root directory entry. -/
def fat32_get_root (inner : Fat32Inner) : Dirent where
  name := [0x72, 0x6f, 0x6f, 0x74]
  raw_name := [0x72, 0x6f, 0x6f, 0x74]
  cluster_id := inner.root_dir_first_cluster
  nbytes := 0
  is_dir_p := true

/-! ## SD command descriptor table (`emmc.rs`) -/

/-- `SdCardCommands` from `emmc.rs`. -/
inductive SdCardCommands where
  | GO_IDLE_STATE
  | ALL_SEND_CID
  | SEND_REL_ADDR
  | SET_DSR
  | SWITCH_FUNC
  | CARD_SELECT
  | SEND_IF_COND
  | SEND_CSD
  | SEND_CID
  | VOLTAGE_SWITCH
  | STOP_TRANS
  | SEND_STATUS
  | GO_INACTIVE
  | SET_BLOCKLEN
  | READ_SINGLE
  | READ_MULTI
  | SEND_TUNING
  | SPEED_CLASS
  | SET_BLOCKCNT
  | WRITE_SINGLE
  | WRITE_MULTI
  | PROGRAM_CSD
  | SET_WRITE_PR
  | CLR_WRITE_PR
  | SND_WRITE_PR
  | ERASE_WR_ST
  | ERASE_WR_END
  | ERASE
  | LOCK_UNLOCK
  | APP_CMD
  | APP_CMD_RCA
  | GEN_CMD
  | APP_CMD_START
  | SET_BUS_WIDTH
  | EMMC_STATUS
  | SEND_NUM_WRBL
  | SEND_NUM_ERS
  | APP_SEND_OP_COND
  | SET_CLR_DET
  | SEND_SCR
  deriving DecidableEq

/-- A `tock-registers` field value of the `CMDTM` register: the value is
masked to the field width and shifted to the field offset; summing disjoint
field values and writing them to a zeroed `LocalRegisterCopy` yields their
bitwise union. -/
def cmdtmField (offset width v : Nat) : Nat :=
  (v % 2 ^ width) * 2 ^ offset

/-- `CMDTM::TM_BLKCNT_EN` (bit 1). -/
def TM_BLKCNT_EN (v : Nat) : Nat := cmdtmField 1 1 v

/-- `CMDTM::TM_DAT_DIR` (bit 4, 1 = card to host). -/
def TM_DAT_DIR (v : Nat) : Nat := cmdtmField 4 1 v

/-- `CMDTM::TM_MULTI_BLOCK` (bit 5). -/
def TM_MULTI_BLOCK (v : Nat) : Nat := cmdtmField 5 1 v

/-- `CMDTM::CMD_RSPNS_TYPE` (bits 16-17): 0 no response, 1 a 136-bit
response, 2 a 48-bit response, 3 a 48-bit response using busy. -/
def CMD_RSPNS_TYPE (v : Nat) : Nat := cmdtmField 16 2 v

/-- `CMDTM::CMD_ISDATA` (bit 21). -/
def CMD_ISDATA (v : Nat) : Nat := cmdtmField 21 1 v

/-- `CMDTM::CMD_INDEX` (bits 24-29). -/
def CMD_INDEX (v : Nat) : Nat := cmdtmField 24 6 v

/-- `EMMCCommand` from `emmc.rs`: descriptor name, the assembled `CMDTM`
register word, the RCA-required flag and the post-issue delay (ms). -/
structure EMMCCommand where
  cmd_name : String
  cmd_code : Nat
  use_rca : Nat
  delay : Nat
  deriving DecidableEq

/-- `SdCardCommands::get_cmd` from `emmc.rs`: the static descriptor table.
The `APP_CMD_START` marker variant has no arm and falls into the
`_ => unimplemented!()` branch, a panic modelled as `none`. -/
def get_cmd : SdCardCommands → Option EMMCCommand
  | .GO_IDLE_STATE => some
      { cmd_name := "GO_IDLE_STATE", cmd_code := CMD_INDEX 0x00 + CMD_RSPNS_TYPE 0,
        use_rca := 0, delay := 0 }
  | .ALL_SEND_CID => some
      { cmd_name := "ALL_SEND_CID", cmd_code := CMD_INDEX 0x02 + CMD_RSPNS_TYPE 1,
        use_rca := 0, delay := 0 }
  | .SEND_REL_ADDR => some
      { cmd_name := "SEND_REL_ADDR", cmd_code := CMD_INDEX 0x03 + CMD_RSPNS_TYPE 2,
        use_rca := 0, delay := 0 }
  | .SET_DSR => some
      { cmd_name := "SET_DSR", cmd_code := CMD_INDEX 0x04 + CMD_RSPNS_TYPE 0,
        use_rca := 0, delay := 0 }
  | .SWITCH_FUNC => some
      { cmd_name := "SWITCH_FUNC", cmd_code := CMD_INDEX 0x06 + CMD_RSPNS_TYPE 2,
        use_rca := 0, delay := 0 }
  | .CARD_SELECT => some
      { cmd_name := "CARD_SELECT", cmd_code := CMD_INDEX 0x07 + CMD_RSPNS_TYPE 3,
        use_rca := 1, delay := 0 }
  | .SEND_IF_COND => some
      { cmd_name := "SEND_IF_COND", cmd_code := CMD_INDEX 0x08 + CMD_RSPNS_TYPE 2,
        use_rca := 1, delay := 100 }
  | .SEND_CSD => some
      { cmd_name := "SEND_CSD", cmd_code := CMD_INDEX 0x09 + CMD_RSPNS_TYPE 1,
        use_rca := 1, delay := 0 }
  | .SEND_CID => some
      { cmd_name := "SEND_CID", cmd_code := CMD_INDEX 0x0a + CMD_RSPNS_TYPE 1,
        use_rca := 1, delay := 0 }
  | .VOLTAGE_SWITCH => some
      { cmd_name := "VOLT_SWITCH", cmd_code := CMD_INDEX 0x0b + CMD_RSPNS_TYPE 2,
        use_rca := 0, delay := 0 }
  | .STOP_TRANS => some
      { cmd_name := "STOP_TRANS", cmd_code := CMD_INDEX 0x0c + CMD_RSPNS_TYPE 3,
        use_rca := 0, delay := 0 }
  | .SEND_STATUS => some
      { cmd_name := "SEND_STATUS", cmd_code := CMD_INDEX 0x0d + CMD_RSPNS_TYPE 2,
        use_rca := 1, delay := 0 }
  | .GO_INACTIVE => some
      { cmd_name := "GO_INACTIVE", cmd_code := CMD_INDEX 0x0f + CMD_RSPNS_TYPE 0,
        use_rca := 1, delay := 0 }
  | .SET_BLOCKLEN => some
      { cmd_name := "SET_BLOCKLEN", cmd_code := CMD_INDEX 0x10 + CMD_RSPNS_TYPE 0,
        use_rca := 0, delay := 0 }
  | .READ_SINGLE => some
      { cmd_name := "READ_SINGLE",
        cmd_code := CMD_INDEX 0x11 + CMD_RSPNS_TYPE 2 + CMD_ISDATA 1 + TM_DAT_DIR 1,
        use_rca := 0, delay := 0 }
  | .READ_MULTI => some
      { cmd_name := "READ_MULTI",
        cmd_code := CMD_INDEX 0x12 + CMD_RSPNS_TYPE 2 + CMD_ISDATA 1 + TM_DAT_DIR 1
          + TM_BLKCNT_EN 1 + TM_MULTI_BLOCK 1,
        use_rca := 0, delay := 0 }
  | .SEND_TUNING => some
      { cmd_name := "SEND_TUNING", cmd_code := CMD_INDEX 0x13 + CMD_RSPNS_TYPE 2,
        use_rca := 0, delay := 0 }
  | .SPEED_CLASS => some
      { cmd_name := "SPEED_CLASS", cmd_code := CMD_INDEX 0x14 + CMD_RSPNS_TYPE 3,
        use_rca := 0, delay := 0 }
  | .SET_BLOCKCNT => some
      { cmd_name := "SET_BLOCKCNT", cmd_code := CMD_INDEX 0x17 + CMD_RSPNS_TYPE 2,
        use_rca := 0, delay := 0 }
  | .WRITE_SINGLE => some
      { cmd_name := "WRITE_SINGLE",
        cmd_code := CMD_INDEX 0x18 + CMD_RSPNS_TYPE 2 + CMD_ISDATA 1,
        use_rca := 0, delay := 0 }
  | .WRITE_MULTI => some
      { cmd_name := "WRITE_MULTI",
        cmd_code := CMD_INDEX 0x19 + CMD_RSPNS_TYPE 2 + CMD_ISDATA 1
          + TM_BLKCNT_EN 1 + TM_MULTI_BLOCK 1,
        use_rca := 0, delay := 0 }
  | .PROGRAM_CSD => some
      { cmd_name := "PROGRAM_CSD", cmd_code := CMD_INDEX 0x1b + CMD_RSPNS_TYPE 2,
        use_rca := 0, delay := 0 }
  | .SET_WRITE_PR => some
      { cmd_name := "SET_WRITE_PR", cmd_code := CMD_INDEX 0x1c + CMD_RSPNS_TYPE 3,
        use_rca := 0, delay := 0 }
  | .CLR_WRITE_PR => some
      { cmd_name := "CLR_WRITE_PR", cmd_code := CMD_INDEX 0x1d + CMD_RSPNS_TYPE 3,
        use_rca := 0, delay := 0 }
  | .SND_WRITE_PR => some
      { cmd_name := "SND_WRITE_PR", cmd_code := CMD_INDEX 0x1e + CMD_RSPNS_TYPE 2,
        use_rca := 0, delay := 0 }
  | .ERASE_WR_ST => some
      { cmd_name := "ERASE_WR_ST", cmd_code := CMD_INDEX 0x20 + CMD_RSPNS_TYPE 2,
        use_rca := 0, delay := 0 }
  | .ERASE_WR_END => some
      { cmd_name := "ERASE_WR_END", cmd_code := CMD_INDEX 0x21 + CMD_RSPNS_TYPE 2,
        use_rca := 0, delay := 0 }
  | .ERASE => some
      { cmd_name := "ERASE", cmd_code := CMD_INDEX 0x26 + CMD_RSPNS_TYPE 3,
        use_rca := 0, delay := 0 }
  | .LOCK_UNLOCK => some
      { cmd_name := "LOCK_UNLOCK", cmd_code := CMD_INDEX 0x2a + CMD_RSPNS_TYPE 2,
        use_rca := 0, delay := 0 }
  | .APP_CMD => some
      { cmd_name := "APP_CMD", cmd_code := CMD_INDEX 0x37 + CMD_RSPNS_TYPE 0,
        use_rca := 0, delay := 100 }
  | .APP_CMD_RCA => some
      { cmd_name := "APP_CMD_RCA", cmd_code := CMD_INDEX 0x37 + CMD_RSPNS_TYPE 2,
        use_rca := 1, delay := 0 }
  | .GEN_CMD => some
      { cmd_name := "GEN_CMD", cmd_code := CMD_INDEX 0x38 + CMD_RSPNS_TYPE 2,
        use_rca := 0, delay := 0 }
  | .SET_BUS_WIDTH => some
      { cmd_name := "SET_BUS_WIDTH", cmd_code := CMD_INDEX 0x06 + CMD_RSPNS_TYPE 2,
        use_rca := 0, delay := 0 }
  | .EMMC_STATUS => some
      { cmd_name := "EMMC_STATUS", cmd_code := CMD_INDEX 0x0d + CMD_RSPNS_TYPE 2,
        use_rca := 1, delay := 0 }
  | .SEND_NUM_WRBL => some
      { cmd_name := "SEND_NUM_WRBL", cmd_code := CMD_INDEX 0x16 + CMD_RSPNS_TYPE 2,
        use_rca := 0, delay := 0 }
  | .SEND_NUM_ERS => some
      { cmd_name := "SEND_NUM_ERS", cmd_code := CMD_INDEX 0x17 + CMD_RSPNS_TYPE 2,
        use_rca := 0, delay := 0 }
  | .APP_SEND_OP_COND => some
      { cmd_name := "APP_SEND_OP_COND", cmd_code := CMD_INDEX 0x29 + CMD_RSPNS_TYPE 2,
        use_rca := 0, delay := 1000 }
  | .SET_CLR_DET => some
      { cmd_name := "SET_CLR_DET", cmd_code := CMD_INDEX 0x2a + CMD_RSPNS_TYPE 2,
        use_rca := 0, delay := 0 }
  | .SEND_SCR => some
      { cmd_name := "SEND_SCR",
        cmd_code := CMD_INDEX 0x33 + CMD_RSPNS_TYPE 2 + CMD_ISDATA 1 + TM_DAT_DIR 1,
        use_rca := 0, delay := 0 }
  | .APP_CMD_START => none

/-- Field extraction from an assembled `CMDTM` word: command index,
bits 24-29. -/
def cmd_index_of (code : Nat) : Nat := code / 2 ^ 24 % 2 ^ 6

/-- Field extraction: response type, bits 16-17. -/
def rspns_type_of (code : Nat) : Nat := code / 2 ^ 16 % 2 ^ 2

/-- Field extraction: is-data flag, bit 21. -/
def isdata_of (code : Nat) : Nat := code / 2 ^ 21 % 2

/-- Field extraction: data direction, bit 4. -/
def dat_dir_of (code : Nat) : Nat := code / 2 ^ 4 % 2

/-- Field extraction: block-count-enable flag, bit 1. -/
def blkcnt_en_of (code : Nat) : Nat := code / 2 ^ 1 % 2

/-- Field extraction: multi-block flag, bit 5. -/
def multi_block_of (code : Nat) : Nat := code / 2 ^ 5 % 2

/-! ## Chain iteration predicates (for the termination analysis) -/

/-- The k-fold iteration of `get_next_cluster_val` starting from a cluster
value; `none` as soon as a FAT read is out of bounds. -/
def iterateNext (fat : List Nat) : Nat → Nat → Option Nat
  | 0, c => some c
  | k + 1, c =>
    match get_next_cluster_val fat c with
    | some c2 => iterateNext fat k c2
    | none => none

/-- The successor sequence from `start` eventually produces a value whose
classification stops the walk (`Last`, `Free`, `Bad` or `Reserved`), every
earlier value being classified as `Used` (so the walk actually reaches it). -/
def reachesTerminal (fat : List Nat) (start : Nat) : Prop :=
  ∃ k c, iterateNext fat k start = some c ∧ chainCondition c = some false ∧
    ∀ j cj, j < k → iterateNext fat j start = some cj → chainCondition cj = some true

/-- The successor sequence from `start` stays in the `Used` range forever:
every iterate exists (all FAT reads in bounds) and classifies as `Used`. -/
def staysUsed (fat : List Nat) (start : Nat) : Prop :=
  ∀ k, ∃ c, iterateNext fat k start = some c ∧ chainCondition c = some true

/-! ## Concrete test fixtures -/

/-- A 64-byte FAT in the standard on-disk layout, encoding the cluster chain
2 → 5 → 9 → Last: the 4-byte little-endian entry of cluster `c` sits at byte
offset `4 * c`; entry 2 holds 5, entry 5 holds 9, entry 9 holds the
end-of-chain marker `0x0FFFFFF8`; all other entries are zero. -/
def fatChainLE : List Nat :=
  [0, 0, 0, 0, 0, 0, 0, 0,
   5, 0, 0, 0, 0, 0, 0, 0,
   0, 0, 0, 0, 9, 0, 0, 0,
   0, 0, 0, 0, 0, 0, 0, 0,
   0, 0, 0, 0, 0xF8, 0xFF, 0xFF, 0x0F,
   0, 0, 0, 0, 0, 0, 0, 0,
   0, 0, 0, 0, 0, 0, 0, 0,
   0, 0, 0, 0, 0, 0, 0, 0]

/-- A 64-byte FAT whose entry for cluster 7 is the Bad marker `0x0FFFFFF7`
under both indexing conventions: at the standard byte offset `4 * 7 = 28` as
little-endian bytes, and at the raw byte offset 7 in the byte order that
`get_next_cluster_val`'s decoder `arr_to_u32_le` reassembles to `0x0FFFFFF7`. -/
def fatBadStart : List Nat :=
  [0, 0, 0, 0, 0, 0, 0, 0xF7,
   0x0F, 0xFF, 0xFF, 0, 0, 0, 0, 0,
   0, 0, 0, 0, 0, 0, 0, 0,
   0, 0, 0, 0, 0xF7, 0xFF, 0xFF, 0x0F,
   0, 0, 0, 0, 0, 0, 0, 0,
   0, 0, 0, 0, 0, 0, 0, 0,
   0, 0, 0, 0, 0, 0, 0, 0,
   0, 0, 0, 0, 0, 0, 0, 0]

/-- A FAT buffer on which the chain walk cycles: the four bytes the walker
reads for cluster 2 decode back to 2, so the successor of 2 is 2 forever. -/
def cycFat : List Nat := [0, 0, 2, 0, 0, 0]

/-- A FAT buffer on which the walk starting at cluster 2 visits exactly one
cluster: the bytes read for cluster 2 decode to the end-of-chain marker
`0x0FFFFFF8`. -/
def dirFat : List Nat := [0, 0, 0xF8, 0x0F, 0xFF, 0xFF]

/-- A deleted directory record: first filename byte `0xE5`. -/
def recDeleted : List Nat := 0xE5 :: List.replicate 31 0

/-- A long-filename directory record: attribute byte (offset 11) `0x0F`. -/
def recLfn : List Nat := List.replicate 11 0x41 ++ 0x0F :: List.replicate 20 0

/-- A valid file record: 8.3 name `HELLO   TXT`, attribute `0x20` (archive),
start cluster 5, size 16 bytes. -/
def recValid : List Nat :=
  [0x48, 0x45, 0x4C, 0x4C, 0x4F, 0x20, 0x20, 0x20, 0x54, 0x58, 0x54]
    ++ [0x20] ++ List.replicate 8 0 ++ [0, 0] ++ List.replicate 4 0
    ++ [0x05, 0] ++ [0x10, 0, 0, 0]

/-- A 512-byte directory block: a deleted record, a long-filename record,
thirteen free records, and one valid file record in the final 32-byte slot. -/
def dirBlock : List Nat :=
  recDeleted ++ recLfn ++ List.replicate (13 * 32) 0 ++ recValid

/-- A concrete FAT32 driver state: one sector per cluster, the root directory
at cluster 2, the FAT buffer `dirFat`, and a block device whose every sector
read returns `dirBlock`. -/
def exDirInner : Fat32Inner where
  lba_start := 0
  fat_begin_lba := 0
  clusters_begin_lba := 0
  sectors_per_cluster := 1
  root_dir_first_cluster := 2
  fat := dirFat
  n_entries := 128
  sdTransfer := fun _ _ i => dirBlock.getD i 0

/-- A driver state over the cyclic FAT `cycFat`. -/
def exCycInner : Fat32Inner where
  lba_start := 0
  fat_begin_lba := 0
  clusters_begin_lba := 0
  sectors_per_cluster := 1
  root_dir_first_cluster := 2
  fat := cycFat
  n_entries := 128
  sdTransfer := fun _ _ _ => 0

/-- A driver state over the chain FAT `fatChainLE`, with a block device whose
transfer engine leaves the read buffer zeroed. -/
def exChainInner : Fat32Inner where
  lba_start := 0
  fat_begin_lba := 0
  clusters_begin_lba := 0
  sectors_per_cluster := 1
  root_dir_first_cluster := 2
  fat := fatChainLE
  n_entries := 128
  sdTransfer := fun _ _ _ => 0

/-- The outcome kind of a fuel-bounded loop run (0 = returned, 1 = panicked,
2 = ran out of fuel). -/
def resShape {α : Type} : LoopResult α → Nat
  | .ok _ => 0
  | .panicked => 1
  | .outOfFuel => 2

/-- A directory entry whose start cluster classifies as `Free`, so the chain
walk ends before its first iteration and yields zero data bytes. -/
def exFreeEnt : Dirent where
  name := []
  raw_name := []
  cluster_id := 0
  nbytes := 0
  is_dir_p := true

/-- A MBR whose slot 1 is a bootable FAT32-LBA partition, slots 2-4 are
empty and the trailing signature is `0x55, 0xAA`. -/
def exGoodMBR : MBRInner where
  code := []
  part_tab1 := [0x80, 0, 0, 0, 0x0C, 0, 0, 0, 0x01, 0, 0, 0, 0x00, 0x08, 0, 0]
  part_tab2 := List.replicate 16 0
  part_tab3 := List.replicate 16 0
  part_tab4 := List.replicate 16 0
  sigval := [0x55, 0xAA]

/-- A boot sector satisfying every invariant of `fat32_volume_id_check`. -/
def exGoodBoot : BootSector where
  asm_code := []
  oem := []
  bytes_per_sec := [0x00, 0x02]
  sec_per_cluster := 8
  reserved_area_nsec := [0x20, 0]
  nfats := 2
  max_files := [0, 0]
  fs_nsec := [0, 0]
  media_type := 0xF8
  zero := [0, 0]
  sec_per_track := [0, 0]
  n_heads := [0, 0]
  hidden_secs := [0, 0, 0, 0]
  nsec_in_fs := [0, 0, 8, 0]
  nsec_per_fat := [0, 4, 0, 0]
  mirror_flags := [0, 0]
  version := [0, 0]
  first_cluster := [2, 0, 0, 0]
  info_sec_num := [1, 0]
  backup_boot_loc := [6, 0]
  logical_drive_num := 0x80
  extended_sig := 0x29
  serial_num := [0, 0, 0, 0]
  volume_label := []
  fs_type := []
  sig := [0x55, 0xAA]

/-! ## Loop-unfolding lemmas and chain-walk helpers -/

theorem chainLengthLoop_succ (fat : List Nat) (f c len : Nat) :
    chainLengthLoop fat (f + 1) c len =
      match chainCondition c with
      | none => .panicked
      | some false => .ok len
      | some true =>
        match get_next_cluster_val fat c with
        | none => .panicked
        | some c2 => chainLengthLoop fat f c2 ((len + 1) % 2 ^ 32) := rfl

theorem chainDataLoop_succ (inner : Fat32Inner) (f c : Nat) (data : List Nat) :
    chainDataLoop inner (f + 1) c data =
      match chainCondition c with
      | none => .panicked
      | some false => .ok data
      | some true =>
        match cluster_to_lba inner c with
        | none => .panicked
        | some lba =>
          let new_data := pi_sec_read inner.sdTransfer lba inner.sectors_per_cluster
          match get_next_cluster_val inner.fat c with
          | none => .panicked
          | some c2 => chainDataLoop inner f c2 (data ++ new_data) := rfl

theorem iterateNext_zero (fat : List Nat) (c : Nat) : iterateNext fat 0 c = some c := rfl

theorem iterateNext_succ (fat : List Nat) (k c : Nat) :
    iterateNext fat (k + 1) c =
      match get_next_cluster_val fat c with
      | some c2 => iterateNext fat k c2
      | none => none := rfl

/-- When the chain condition holds, the current cluster classifies as Used. -/
theorem chainCondition_true_used {c : Nat} (h : chainCondition c = some true) :
    get_fat_entry_type c = some .UsedCluster := by
  unfold chainCondition at h
  cases hg : get_fat_entry_type c with
  | none => rw [hg] at h; exact absurd h (by simp)
  | some t => rw [hg] at h; cases t <;> simp_all

/-- A cluster whose chain condition holds is at least 2, so `cluster_to_lba`
does not hit its assert. -/
theorem chainCondition_true_two_le {c : Nat} (h : chainCondition c = some true) : 2 ≤ c := by
  have hu := chainCondition_true_used h
  by_contra hlt
  push_neg at hlt
  interval_cases c
  · exact absurd hu (by decide)
  · exact absurd hu (by decide)

theorem cluster_to_lba_of_used {inner : Fat32Inner} {c : Nat}
    (h : chainCondition c = some true) :
    cluster_to_lba inner c
      = some ((inner.clusters_begin_lba + (c - 2) * inner.sectors_per_cluster) % 2 ^ 32) := by
  unfold cluster_to_lba
  rw [if_pos (chainCondition_true_two_le h)]

theorem resShape_eq_zero {α : Type} {r : LoopResult α} :
    resShape r = 0 ↔ ∃ a, r = .ok a := by
  cases r <;> simp [resShape]

theorem resShape_eq_two {α : Type} {r : LoopResult α} :
    resShape r = 2 ↔ r = .outOfFuel := by
  cases r <;> simp [resShape]

/-- The two chain-walk loops have identical control flow: with equal fuel and
start cluster, the data loop returns, panics or exhausts its fuel exactly
when the length loop does (the extra `cluster_to_lba` call of the data loop
never panics, because it only runs when the chain condition holds). -/
theorem chainData_shape (inner : Fat32Inner) :
    ∀ (fuel c : Nat) (data : List Nat) (len : Nat),
      resShape (chainDataLoop inner fuel c data)
        = resShape (chainLengthLoop inner.fat fuel c len) := by
  intro fuel
  induction fuel with
  | zero => intro c data len; rfl
  | succ f ih =>
    intro c data len
    rw [chainDataLoop_succ, chainLengthLoop_succ]
    cases hc : chainCondition c with
    | none => rfl
    | some b =>
      cases b with
      | false => rfl
      | true =>
        rw [cluster_to_lba_of_used hc]
        cases hn : get_next_cluster_val inner.fat c with
        | none => rfl
        | some c2 => exact ih c2 _ _

/-- A normal return of the length loop implies that the successor sequence
reaches a walk-stopping cluster. -/
theorem lengthLoop_ok_reaches (fat : List Nat) :
    ∀ (fuel c len n : Nat),
      chainLengthLoop fat fuel c len = .ok n → reachesTerminal fat c := by
  intro fuel
  induction fuel with
  | zero => intro c len n h; exact absurd h (by simp [chainLengthLoop])
  | succ f ih =>
    intro c len n h
    rw [chainLengthLoop_succ] at h
    cases hc : chainCondition c with
    | none => rw [hc] at h; exact absurd h (by simp)
    | some b =>
      cases b with
      | false => exact ⟨0, c, rfl, hc, fun j cj hj => absurd hj (Nat.not_lt_zero j)⟩
      | true =>
        rw [hc] at h
        cases hn : get_next_cluster_val fat c with
        | none => rw [hn] at h; exact absurd h (by simp)
        | some c2 =>
          rw [hn] at h
          obtain ⟨k, cterm, hit, hcond, hpri⟩ := ih c2 _ n h
          refine ⟨k + 1, cterm, ?_, hcond, ?_⟩
          · rw [iterateNext_succ, hn]; exact hit
          · intro j cj hj hcj
            cases j with
            | zero =>
              rw [iterateNext_zero] at hcj
              injection hcj with h2
              exact h2 ▸ hc
            | succ j2 =>
              rw [iterateNext_succ, hn] at hcj
              exact hpri j2 cj (by omega) hcj

/-- Conversely, if the successor sequence reaches a walk-stopping cluster in
`k` steps (all earlier steps being Used), the length loop returns with fuel
`k + 1`. -/
theorem reaches_lengthLoop_ok (fat : List Nat) :
    ∀ (k c cterm : Nat), iterateNext fat k c = some cterm →
      chainCondition cterm = some false →
      (∀ j cj, j < k → iterateNext fat j c = some cj → chainCondition cj = some true) →
      ∀ len, ∃ n, chainLengthLoop fat (k + 1) c len = .ok n := by
  intro k
  induction k with
  | zero =>
    intro c cterm hit hterm _ len
    rw [iterateNext_zero] at hit
    injection hit with h2
    subst h2
    exact ⟨len, by rw [chainLengthLoop_succ, hterm]⟩
  | succ k2 ih =>
    intro c cterm hit hterm hpri len
    have hc : chainCondition c = some true :=
      hpri 0 c (Nat.succ_pos k2) (iterateNext_zero fat c)
    rw [iterateNext_succ] at hit
    cases hn : get_next_cluster_val fat c with
    | none => rw [hn] at hit; exact absurd hit (by simp)
    | some c2 =>
      rw [hn] at hit
      obtain ⟨n, hok⟩ := ih c2 cterm hit hterm
        (fun j cj hj hcj => hpri (j + 1) cj (by omega)
          (by rw [iterateNext_succ, hn]; exact hcj))
        ((len + 1) % 2 ^ 32)
      exact ⟨n, by rw [chainLengthLoop_succ, hc, hn]; exact hok⟩

/-- If the successor sequence stays in the Used range forever, the length
loop exhausts any amount of fuel. -/
theorem staysUsed_lengthLoop (fat : List Nat) :
    ∀ (fuel c : Nat), staysUsed fat c → ∀ len,
      chainLengthLoop fat fuel c len = .outOfFuel := by
  intro fuel
  induction fuel with
  | zero => intro c _ len; rfl
  | succ f ih =>
    intro c hst len
    have hc : chainCondition c = some true := by
      obtain ⟨c0, h0, hcond⟩ := hst 0
      rw [iterateNext_zero] at h0
      injection h0 with h2
      rw [h2]
      exact hcond
    obtain ⟨c1, h1, _⟩ := hst 1
    rw [iterateNext_succ] at h1
    cases hn : get_next_cluster_val fat c with
    | none => rw [hn] at h1; exact absurd h1 (by simp)
    | some c2 =>
      have hst2 : staysUsed fat c2 := by
        intro k
        obtain ⟨ck, hk, hcondk⟩ := hst (k + 1)
        rw [iterateNext_succ, hn] at hk
        exact ⟨ck, hk, hcondk⟩
      rw [chainLengthLoop_succ, hc, hn]
      exact ih c2 hst2 ((len + 1) % 2 ^ 32)

/-- One Used iteration of the data loop, for evaluation at concrete inputs
without unfolding the 512-byte sector read. -/
theorem chainDataLoop_step_used (inner : Fat32Inner) (f c : Nat) (data : List Nat)
    (hc : chainCondition c = some true) (lba : Nat)
    (hl : cluster_to_lba inner c = some lba) (c2 : Nat)
    (hn : get_next_cluster_val inner.fat c = some c2) :
    chainDataLoop inner (f + 1) c data
      = chainDataLoop inner f c2
          (data ++ pi_sec_read inner.sdTransfer lba inner.sectors_per_cluster) := by
  rw [chainDataLoop_succ, hc, hl, hn]

/-- The data loop stops and returns its accumulator when the chain condition
fails. -/
theorem chainDataLoop_stop (inner : Fat32Inner) (f c : Nat) (data : List Nat)
    (hc : chainCondition c = some false) :
    chainDataLoop inner (f + 1) c data = .ok data := by
  rw [chainDataLoop_succ, hc]

/-- Reading a 512-byte buffer back out of a length-512 list: the buffer the
transfer function `fun i => l.getD i 0` deposits is the list itself. -/
theorem ofFn_getD {n : Nat} (l : List Nat) (h : l.length = n) :
    (List.ofFn fun i : Fin n => l.getD (↑i) 0) = l := by
  subst h
  apply List.ext_getElem (by simp)
  intro i h1 h2
  rw [List.getElem_ofFn]
  exact List.getD_eq_getElem _ _ h2

set_option maxRecDepth 10000 in
theorem dirBlock_length : dirBlock.length = 512 := by
  decide

/-- Every sector read of `exDirInner` returns the directory block. -/
theorem exDir_read (lba n : Nat) : pi_sec_read exDirInner.sdTransfer lba n = dirBlock := by
  unfold pi_sec_read emmc_read_sectors
  simp only [exDirInner]
  exact ofFn_getD dirBlock dirBlock_length

/-- Every sector read of `exChainInner` returns 512 zero bytes. -/
theorem exChain_read (lba n : Nat) :
    pi_sec_read exChainInner.sdTransfer lba n = List.replicate 512 0 := by
  unfold pi_sec_read emmc_read_sectors
  simp only [exChainInner]
  exact List.ofFn_const 512 0

/-- The root-directory chain of `exDirInner` yields exactly the 512-byte
block `dirBlock`: one Used iteration from cluster 2, then the Last marker. -/
theorem exDir_chain_data : get_cluster_chain_data exDirInner 2 10 = .ok dirBlock := by
  show chainDataLoop exDirInner 10 2 [] = .ok dirBlock
  rw [show (10 : Nat) = 9 + 1 from rfl,
    chainDataLoop_step_used exDirInner 9 2 [] (by decide) 0 (by decide)
      0x0FFFFFF8 (by decide),
    show (9 : Nat) = 8 + 1 from rfl,
    chainDataLoop_stop exDirInner 8 0x0FFFFFF8 _ (by decide),
    List.nil_append, exDir_read]

/-- The chain walk of `exChainInner` starting at cluster 2 visits exactly one
cluster (the bytes at raw offset 2 decode to 0, classified Free) and returns
that cluster's 512 zero bytes. -/
theorem exChain_data : get_cluster_chain_data exChainInner 2 10 = .ok (List.replicate 512 0) := by
  show chainDataLoop exChainInner 10 2 [] = .ok (List.replicate 512 0)
  rw [show (10 : Nat) = 9 + 1 from rfl,
    chainDataLoop_step_used exChainInner 9 2 [] (by decide) 0 (by decide) 0 (by decide),
    show (9 : Nat) = 8 + 1 from rfl,
    chainDataLoop_stop exChainInner 8 0 _ (by decide),
    List.nil_append, exChain_read]

/-- Record extraction on the root directory of `exDirInner`: the chain data is
the single block `dirBlock`, which is sliced into records (the final one
dropped by the loop bound). -/
theorem exDir_dirents : get_dirents exDirInner 2 10 = .ok (sliceDirents dirBlock) := by
  unfold get_dirents
  rw [show get_cluster_chain_length exDirInner.fat 2 10 = .ok 1 from by decide,
    exDir_chain_data]
  show (if dirBlock.length < 32 then LoopResult.panicked
    else .ok (sliceDirents dirBlock)) = .ok (sliceDirents dirBlock)
  rw [if_neg (by rw [dirBlock_length]; decide)]

/-! ## Claim theorems -/

/-- C1 (code_bug evidence): `pi_sec_read(lba, count)` always returns the
fixed 512-byte buffer that `SDInner::emmc_read_sectors` allocates, for every
requested sector count and every behaviour of the external transfer engine;
in particular a two-sector read at LBA 3 yields 512 bytes, not the
`count * 512 = 1024` bytes the specified contract requires. -/
theorem c1_pi_sec_read_fixed_512 :
    (∀ (tr : Nat → Nat → Fin 512 → Nat) (lba count : Nat),
      (pi_sec_read tr lba count).length = 512)
    ∧ (pi_sec_read (fun _ _ _ => 0) 3 2).length ≠ 2 * 512 := by
  constructor
  · intro tr lba count
    simp only [pi_sec_read, emmc_read_sectors, List.length_ofFn]
  · simp only [pi_sec_read, emmc_read_sectors, List.length_ofFn]
    omega

set_option maxRecDepth 10000 in
/-- C2 (code_bug evidence): on the 64-byte FAT `fatChainLE`, which encodes the
chain 2 → 5 → 9 → Last in the standard layout (4-byte little-endian entry of
cluster `c` at byte offset `4 * c`), `get_cluster_chain_length(2)` returns 1,
not 3: the walker reads the four bytes at raw offset 2, which are zero, and
classifies the resulting 0 as `Free`.  On `fatBadStart`, whose entry for
cluster 7 is the Bad marker `0x0FFFFFF7` under both byte-offset conventions,
`get_cluster_chain_length(7)` returns 1, not 0: the loop classifies the start
cluster number 7 itself (`Used`), enters the body once, and only then sees
the Bad entry.  The chain data for start 2 is likewise one 512-byte block
(one visited cluster), not three clusters of bytes. -/
theorem c2_chain_walk_eval :
    get_cluster_chain_length fatChainLE 2 10 = .ok 1
    ∧ get_cluster_chain_length fatBadStart 7 10 = .ok 1
    ∧ get_cluster_chain_data exChainInner 2 10 = .ok (List.replicate 512 0) := by
  exact ⟨by decide, by decide, exChain_data⟩

set_option maxRecDepth 10000 in
/-- C3 (code_bug evidence): the cluster chain of the root directory of
`exDirInner` yields the single 512-byte block `dirBlock`, whose final 32-byte
record `recValid` is a valid file entry (not free, not a long-filename entry,
not a volume label), and its other records are one deleted entry, one
long-filename entry and thirteen free entries.  `read_dir` nevertheless
returns an empty `Directory`: the record loop `for i in
(0..data.len() - 32).step_by(32)` never visits the final record, so the one
valid entry is dropped instead of being retained and converted.  (Chain data
always arrives in whole 512-byte sectors, so the 96-byte block of the claim
cannot even occur.) -/
theorem c3_read_dir_drops_valid_entry :
    dirent_is_free (dirent_from_bytes recValid) = false
    ∧ dirent_is_lfn (dirent_from_bytes recValid) = false
    ∧ dirent_is_vol_label (dirent_from_bytes recValid) = false
    ∧ dirBlock.length = 512
    ∧ (dirBlock.drop 480).take 32 = recValid
    ∧ get_cluster_chain_data exDirInner 2 10 = .ok dirBlock
    ∧ read_dir exDirInner (fat32_get_root exDirInner) 10
        = .ok { dirents := [], n_dirents := 0 } := by
  refine ⟨by decide, by decide, by decide, dirBlock_length, by decide, exDir_chain_data, ?_⟩
  have hd : get_dirents exDirInner (fat32_get_root exDirInner).cluster_id 10
      = .ok (sliceDirents dirBlock) := by
    rw [show (fat32_get_root exDirInner).cluster_id = 2 from rfl]
    exact exDir_dirents
  unfold read_dir
  rw [hd]
  decide

/-- C4 counterexample: the classification ranges do not cover all 28-bit
values; at input `0x0FFFFFF0` (top bits already clear) `get_fat_entry_type`
reaches the `panic!` arm instead of returning one of the five classes. -/
theorem c4_counterexample : get_fat_entry_type 0x0FFFFFF0 = none := by decide

/-- C4 (amended): `get_fat_entry_type` clears the top 4 bits of its 32-bit
input and classifies the remaining 28-bit value as Free (0), Reserved (1),
Bad (0x0FFFFFF7), Last (0x0FFFFFF8 - 0x0FFFFFFF) or Used (2 - 0x0FFFFFEF);
the seven 28-bit values 0x0FFFFFF0 - 0x0FFFFFF6 are covered by none of the
five ranges and hit the panic branch, which is therefore reachable. -/
theorem c4_classification_amended (x : Nat) :
    (x % 2 ^ 28 = 0 → get_fat_entry_type x = some .FreeCluster)
    ∧ (x % 2 ^ 28 = 1 → get_fat_entry_type x = some .ReservedCluster)
    ∧ (x % 2 ^ 28 = 0xFFFFFF7 → get_fat_entry_type x = some .BadCluster)
    ∧ (0xFFFFFF8 ≤ x % 2 ^ 28 → x % 2 ^ 28 ≤ 0xFFFFFFF →
        get_fat_entry_type x = some .LastCluster)
    ∧ (2 ≤ x % 2 ^ 28 → x % 2 ^ 28 ≤ 0xFFFFFEF →
        get_fat_entry_type x = some .UsedCluster)
    ∧ (0xFFFFFF0 ≤ x % 2 ^ 28 → x % 2 ^ 28 ≤ 0xFFFFFF6 →
        get_fat_entry_type x = none) := by
  have hcls : ((x * 2 ^ 4) % 2 ^ 32) / 2 ^ 4 = x % 2 ^ 28 := by
    have h32 : (2 : Nat) ^ 32 = 2 ^ 4 * 2 ^ 28 := by norm_num
    rw [Nat.mul_comm x (2 ^ 4), h32, Nat.mul_mod_mul_left,
      Nat.mul_div_cancel_left _ (by norm_num : (0 : Nat) < 2 ^ 4)]
  refine ⟨?_, ?_, ?_, ?_, ?_, ?_⟩ <;>
    · intros
      simp only [get_fat_entry_type, hcls]
      split_ifs <;> first | rfl | omega

/-- C4 amended-claim instantiation: the input `0xF0000002` has its top four
bits set; clearing them leaves 2, which classifies as Used. -/
theorem c4_classification_amended_witness :
    get_fat_entry_type 0xF0000002 = some Fat32ClusterType.UsedCluster :=
  (c4_classification_amended 0xF0000002).2.2.2.2.1 (by decide) (by decide)

/-- C5 counterexample: on the claim's input slot
`[0x80,0,0,0, 0x0C, 0,0,0, 0x01,0,0,0, 0x00,0x08,0,0]` the decoded sector
count is the little-endian value of bytes 12..16 = `[0x00, 0x08, 0x00, 0x00]`,
namely `0x00000800` - not the `0x00080000` the claim states. -/
theorem c5_counterexample :
    (PartitionEntry.new
        [0x80, 0, 0, 0, 0x0C, 0, 0, 0, 0x01, 0, 0, 0, 0x00, 0x08, 0, 0]).nsec
      ≠ 0x00080000 := by
  decide

/-- C5 (amended): `PartitionEntry::new` is a pure decode of the 16-byte slot:
byte 0 is the bootable flag, byte 4 the partition type, bytes 8..12 the
little-endian 32-bit LBA start and bytes 12..16 the little-endian 32-bit
sector count; on the concrete slot of the claim it yields bootable flag 0x80
(set, i.e. the partition is bootable), type 0x0C, lba_start 1 and
nsec 0x00000800 (the little-endian value of `[0x00, 0x08, 0x00, 0x00]`). -/
theorem c5_partition_entry_new_decode :
    (∀ a0 a1 a2 a3 a4 a5 a6 a7 a8 a9 a10 a11 a12 a13 a14 a15 : Nat,
      PartitionEntry.new
          [a0, a1, a2, a3, a4, a5, a6, a7, a8, a9, a10, a11, a12, a13, a14, a15]
        = { bootable_p := a0, chs_start := [a1, a2, a3], part_type := a4,
            chs_end := [a5, a6, a7],
            lba_start := a8 + a9 * 2 ^ 8 + a10 * 2 ^ 16 + a11 * 2 ^ 24,
            nsec := a12 + a13 * 2 ^ 8 + a14 * 2 ^ 16 + a15 * 2 ^ 24 })
    ∧ PartitionEntry.new
          [0x80, 0, 0, 0, 0x0C, 0, 0, 0, 0x01, 0, 0, 0, 0x00, 0x08, 0, 0]
        = { bootable_p := 0x80, chs_start := [0, 0, 0], part_type := 0x0C,
            chs_end := [0, 0, 0], lba_start := 1, nsec := 0x00000800 } := by
  exact ⟨fun a0 a1 a2 a3 a4 a5 a6 a7 a8 a9 a10 a11 a12 a13 a14 a15 => rfl, by decide⟩

/-- C6: `mbr_check` succeeds exactly when the trailing signature bytes are
`0x55, 0xAA`, slot 1 has partition-type byte 0x0B or 0x0C, slot 1 is not
all-zero, and slots 2-4 are all-zero; negating any one conjunct makes the
check fail (an assert panic). -/
theorem c6_mbr_check_iff (m : MBRInner) :
    mbr_check m = true ↔
      (m.sigval.getD 0 0 = 0x55 ∧ m.sigval.getD 1 0 = 0xAA
        ∧ (m.part_tab1.getD 4 0 = 0x0B ∨ m.part_tab1.getD 4 0 = 0x0C)
        ∧ m.part_tab1 ≠ List.replicate 16 0
        ∧ m.part_tab2 = List.replicate 16 0
        ∧ m.part_tab3 = List.replicate 16 0
        ∧ m.part_tab4 = List.replicate 16 0) := by
  simp only [mbr_check, mbr_part_is_fat32, mbr_partition_empty, PartitionEntry.new,
    Bool.and_eq_true, Bool.or_eq_true, Bool.not_eq_true', beq_iff_eq, beq_eq_false_iff_ne,
    ne_eq]
  tauto

/-- C6 instantiation: the well-formed MBR `exGoodMBR` passes `mbr_check`. -/
theorem c6_mbr_check_iff_witness : mbr_check exGoodMBR = true :=
  (c6_mbr_check_iff exGoodMBR).mpr (by decide)

/-- C7: `fat32_volume_id_check` succeeds exactly when all eleven boot-sector
invariants hold, each multi-byte field being decoded little-endian
(`arr_to_u16` / `arr_to_u32`) before the comparison: bytes-per-sector 512,
two FATs, signature 0xAA55, even sectors-per-cluster, max-files 0, fs_nsec 0,
the zero field 0, a non-zero filesystem sector count, info sector 1, backup
boot sector 6, and extended signature 0x29. -/
theorem c7_volume_id_check_iff (b : BootSector) :
    fat32_volume_id_check b = true ↔
      (arr_to_u16 b.bytes_per_sec = 512 ∧ b.nfats = 2 ∧ arr_to_u16 b.sig = 0xAA55
        ∧ b.sec_per_cluster % 2 = 0 ∧ arr_to_u16 b.max_files = 0
        ∧ arr_to_u16 b.fs_nsec = 0 ∧ arr_to_u16 b.zero = 0
        ∧ arr_to_u32 b.nsec_in_fs ≠ 0 ∧ arr_to_u16 b.info_sec_num = 1
        ∧ arr_to_u16 b.backup_boot_loc = 6 ∧ b.extended_sig = 0x29) := by
  simp only [fat32_volume_id_check, Bool.and_eq_true, beq_iff_eq, bne_iff_ne, ne_eq]
  tauto

/-- C7 instantiation: the well-formed boot sector `exGoodBoot` passes the
volume check. -/
theorem c7_volume_id_check_iff_witness : fat32_volume_id_check exGoodBoot = true :=
  (c7_volume_id_check_iff exGoodBoot).mpr (by decide)

/-- C8: `get_cmd` is a pure total function on the recognized commands (hence
deterministic and side-effect free); READ_SINGLE maps to command index 0x11
with a 48-bit response, the data flag, card-to-host direction, no multi-block
or block-count flags, no RCA requirement and zero delay; READ_MULTI maps to
index 0x12 with the same fields plus the multi-block and block-count-enable
flags; the unrecognized `APP_CMD_START` marker falls into the
`unimplemented!()` arm and panics. -/
theorem c8_get_cmd_read_descriptors :
    get_cmd .READ_SINGLE = some
      { cmd_name := "READ_SINGLE", cmd_code := 0x11220010, use_rca := 0, delay := 0 }
    ∧ get_cmd .READ_MULTI = some
      { cmd_name := "READ_MULTI", cmd_code := 0x12220032, use_rca := 0, delay := 0 }
    ∧ cmd_index_of 0x11220010 = 0x11 ∧ rspns_type_of 0x11220010 = 2
    ∧ isdata_of 0x11220010 = 1 ∧ dat_dir_of 0x11220010 = 1
    ∧ blkcnt_en_of 0x11220010 = 0 ∧ multi_block_of 0x11220010 = 0
    ∧ cmd_index_of 0x12220032 = 0x12 ∧ rspns_type_of 0x12220032 = 2
    ∧ isdata_of 0x12220032 = 1 ∧ dat_dir_of 0x12220032 = 1
    ∧ blkcnt_en_of 0x12220032 = 1 ∧ multi_block_of 0x12220032 = 1
    ∧ get_cmd .APP_CMD_START = none := by
  decide

/-- C9: whenever the chain walk stops before its first iteration (the start
cluster classifies as Last, Free, Bad or Reserved, so
`get_cluster_chain_data` returns zero bytes), `get_dirents` - and therefore
`read_dir` on such an entry - panics on the underflowing
`cluster_chain_data.len() - 32` (debug: subtraction overflow; release: the
wrapped bound makes the first 32-byte slice out of bounds) instead of
returning an empty directory. -/
theorem c9_empty_chain_data_panics (inner : Fat32Inner) (ent : Dirent) (fuel : Nat)
    (hfuel : 1 ≤ fuel) (hterm : chainCondition ent.cluster_id = some false) :
    get_dirents inner ent.cluster_id fuel = .panicked
    ∧ read_dir inner ent fuel = .panicked := by
  obtain ⟨f, rfl⟩ : ∃ f, fuel = f + 1 := ⟨fuel - 1, by omega⟩
  have hlen : get_cluster_chain_length inner.fat ent.cluster_id (f + 1) = .ok 0 := by
    show chainLengthLoop inner.fat (f + 1) ent.cluster_id 0 = .ok 0
    rw [chainLengthLoop_succ, hterm]
  have hdata : get_cluster_chain_data inner ent.cluster_id (f + 1) = .ok [] := by
    show chainDataLoop inner (f + 1) ent.cluster_id [] = .ok []
    rw [chainDataLoop_succ, hterm]
  have hdirents : get_dirents inner ent.cluster_id (f + 1) = .panicked := by
    unfold get_dirents
    rw [hlen, hdata]
    exact rfl
  refine ⟨hdirents, ?_⟩
  unfold read_dir
  rw [hdirents]

/-- C9 instantiation: the entry `exFreeEnt` starts on cluster 0 (classified
Free), so the chain walk yields no data and both functions panic. -/
theorem c9_empty_chain_data_panics_witness :
    get_dirents exDirInner 0 5 = .panicked ∧ read_dir exDirInner exFreeEnt 5 = .panicked :=
  c9_empty_chain_data_panics exDirInner exFreeEnt 5 (by omega) (by decide)

/-- C10: the two chain-walk loops return normally exactly when iterating
`get_next_cluster_val` from the start cluster eventually produces a value
classified Last, Free, Bad or Reserved (all earlier values being Used); and
on any FAT whose successor sequence from the start stays in the Used range
forever there is no fuel bound under which either loop finishes - they run
forever, having no cycle detection or visit bound.  (Abnormal exits - the
classification panic values or an out-of-bounds FAT read - are kernel
aborts, not normal returns.) -/
theorem c10_chain_walk_termination (inner : Fat32Inner) (start : Nat) :
    ((∃ fuel n, get_cluster_chain_length inner.fat start fuel = .ok n)
        ↔ reachesTerminal inner.fat start)
    ∧ ((∃ fuel d, get_cluster_chain_data inner start fuel = .ok d)
        ↔ reachesTerminal inner.fat start)
    ∧ (staysUsed inner.fat start →
        ∀ fuel, get_cluster_chain_length inner.fat start fuel = .outOfFuel
          ∧ get_cluster_chain_data inner start fuel = .outOfFuel) := by
  have hlen_iff : (∃ fuel n, get_cluster_chain_length inner.fat start fuel = .ok n)
      ↔ reachesTerminal inner.fat start := by
    constructor
    · rintro ⟨fuel, n, h⟩
      exact lengthLoop_ok_reaches inner.fat fuel start 0 n h
    · rintro ⟨k, cterm, hit, hterm, hpri⟩
      obtain ⟨n, h⟩ := reaches_lengthLoop_ok inner.fat k start cterm hit hterm hpri 0
      exact ⟨k + 1, n, h⟩
  refine ⟨hlen_iff, ?_, ?_⟩
  · constructor
    · rintro ⟨fuel, d, h⟩
      apply hlen_iff.mp
      have hs := chainData_shape inner fuel start [] 0
      rw [show chainDataLoop inner fuel start [] = .ok d from h] at hs
      obtain ⟨n, hn⟩ := resShape_eq_zero.mp hs.symm
      exact ⟨fuel, n, hn⟩
    · intro hr
      obtain ⟨fuel, n, h⟩ := hlen_iff.mpr hr
      have hs := chainData_shape inner fuel start [] 0
      rw [show chainLengthLoop inner.fat fuel start 0 = .ok n from h] at hs
      obtain ⟨d, hd⟩ := resShape_eq_zero.mp hs
      exact ⟨fuel, d, hd⟩
  · intro hst fuel
    have hlen := staysUsed_lengthLoop inner.fat fuel start hst 0
    refine ⟨hlen, ?_⟩
    have hs := chainData_shape inner fuel start [] 0
    rw [show chainLengthLoop inner.fat fuel start 0 = .outOfFuel from hlen] at hs
    exact resShape_eq_two.mp hs

theorem cycFat_iterate (k : Nat) : iterateNext cycFat k 2 = some 2 := by
  induction k with
  | zero => rfl
  | succ n ih =>
    rw [iterateNext_succ, show get_next_cluster_val cycFat 2 = some 2 from by decide]
    exact ih

theorem cycFat_staysUsed : staysUsed cycFat 2 :=
  fun k => ⟨2, cycFat_iterate k, by decide⟩

/-- C10 instantiation: on the cyclic FAT `cycFat` (the successor of cluster 2
is 2 forever) neither loop finishes within 1000 iterations. -/
theorem c10_chain_walk_termination_witness :
    get_cluster_chain_length exCycInner.fat 2 1000 = .outOfFuel
    ∧ get_cluster_chain_data exCycInner 2 1000 = .outOfFuel :=
  (c10_chain_walk_termination exCycInner 2).2.2 cycFat_staysUsed 1000

end RPiOS
